import Mathlib

/-!
# Verification of the client-side telemetry and anomaly-scoring pipeline

A shallow embedding of the dashboard pipeline of this repository
(`frontend/src/pages/Dashboard.tsx` and `frontend/src/pages/Upload.tsx`):
the data model (samples, channels, run info, datasets), the feature-importance
scoring, the playback-tick state machine, restart, dataset loading, and the
upload error path.  JavaScript numbers are modelled as rationals; `Math.sqrt`
is modelled as an explicit function parameter `sqrtF` (the code's only use of
it is inside the score formula, and every property proved here either avoids
evaluating it or assumes only that it is positive on positive inputs).
-/

/-- A JSON-ish field value of a dataset record: a number or a string. -/
inductive Value where
  | num (q : ℚ)
  | str (s : String)
deriving DecidableEq, Repr

/-- A dataset record: an ordered association list of field names to values,
mirroring a JS object's insertion-ordered keys. -/
def Record : Type := List (String × Value)

instance : DecidableEq Record := inferInstanceAs (DecidableEq (List (String × Value)))

/-- Field lookup on a record (first match), as JS property access. -/
def getField (r : Record) (k : String) : Option Value :=
  (r.find? (fun kv => kv.1 = k)).map Prod.snd

/-- Model of `item[feature] as number`: the numeric value of a field, `0` when the field
is missing or non-numeric (well-typed datasets never hit the default). -/
def getNum (r : Record) (k : String) : ℚ :=
  match getField r k with
  | some (Value.num q) => q
  | _ => 0

/-- Model of `item.Prediction === "Failure"`. -/
def isFailure (r : Record) : Bool :=
  getField r "Prediction" = some (Value.str "Failure")

/-- Model of `item.Prediction === "No Failure"`. -/
def isNoFailure (r : Record) : Bool :=
  getField r "Prediction" = some (Value.str "No Failure")

/-- Whether a record field holds a number (`typeof x === "number"`). -/
def isNumField (r : Record) (k : String) : Bool :=
  match getField r k with
  | some (Value.num _) => true
  | _ => false

/-- Model of `normalRange: { min, max }`. -/
structure Range where
  min : ℚ
  max : ℚ
deriving DecidableEq, Repr

/-- Model of `DataPoint` of `Dashboard.tsx`. -/
structure DataPoint where
  timestamp : String
  value : ℚ
  normalRange : Range
  isAnomaly : Bool
deriving DecidableEq, Repr

/-- Channel status tier of `Dashboard.tsx`. -/
inductive Status where
  | normal
  | warning
  | anomaly
deriving DecidableEq, Repr

/-- Model of `Equipment` of `Dashboard.tsx` (a monitored channel). -/
structure Equipment where
  id : String
  name : String
  data : List DataPoint
  currentValue : ℚ
  normalRange : Range
  status : Status
deriving DecidableEq, Repr

/-- Model of `DatasetRunInfo` of `Dashboard.tsx`. -/
structure RunInfo where
  totalPoints : ℚ
  processedPoints : ℚ
  anomaliesFound : ℚ
  isComplete : Bool
deriving DecidableEq, Repr

/-- Model of `Dataset` of `Dashboard.tsx`, restricted to the fields the pipeline reads. -/
structure Dataset where
  records : ℕ
  data : List Record
deriving DecidableEq

/-- Anomaly-distribution counters (`normal` / `warning` / `anomaly`). -/
structure AnomalyDist where
  normal : ℕ
  warning : ℕ
  anomaly : ℕ
deriving DecidableEq, Repr

/-- The dashboard component state touched by the pipeline. -/
structure DashState where
  equipments : List Equipment
  runInfo : RunInfo
  anomalyDist : AnomalyDist
  featureImportance : List (String × ℚ)
  isPlaying : Bool
  selectedEquipment : Option String
deriving DecidableEq

/-- Model of `runInfo` initial `useState` value (`Dashboard.tsx` lines 57-62). -/
def initRunInfo : RunInfo :=
  { totalPoints := 0, processedPoints := 0, anomaliesFound := 0, isComplete := false }

/-- Initial dashboard state (all the `useState` initial values). -/
def initDashState : DashState :=
  { equipments := []
    runInfo := initRunInfo
    anomalyDist := { normal := 0, warning := 0, anomaly := 0 }
    featureImportance := []
    isPlaying := false
    selectedEquipment := none }

/-! ## Feature detection and importance scoring (`calculateFeatureImportance`) -/

/-- Model of `Object.keys(dataset.data[0]).filter(key => key !== "Prediction" &&
key !== "Type" && typeof dataset.data[0][key] === "number")`. -/
def numericFeatures (data : List Record) : List String :=
  match data with
  | [] => []
  | r :: _ => (r.map Prod.fst).filter fun k =>
      k ≠ "Prediction" ∧ k ≠ "Type" ∧ isNumField r k

/-- Values of a feature over the `"No Failure"` group. -/
def normalVals (data : List Record) (f : String) : List ℚ :=
  (data.filter isNoFailure).map (fun r => getNum r f)

/-- Values of a feature over the `"Failure"` group. -/
def anomalyVals (data : List Record) (f : String) : List ℚ :=
  (data.filter isFailure).map (fun r => getNum r f)

/-- Group mean as the code computes it:
`values.reduce((s,v) => s+v, 0) / Math.max(values.length, 1)`. -/
def groupMeanCode (l : List ℚ) : ℚ :=
  l.sum / (max l.length 1 : ℕ)

/-- Group population variance as the code computes it:
`values.reduce((s,v) => s + (v-mean)^2, 0) / Math.max(values.length, 1)`. -/
def groupVarCode (l : List ℚ) : ℚ :=
  (l.map (fun v => (v - groupMeanCode l) ^ 2)).sum / (max l.length 1 : ℕ)

/-- The raw (pre-normalization) separability score of a feature
(`Dashboard.tsx` lines 231-261), with `Math.sqrt` abstracted as `sqrtF`:
`varianceSum === 0 ? meanDifference : meanDifference / Math.sqrt(varianceSum)`. -/
def rawScore (sqrtF : ℚ → ℚ) (data : List Record) (f : String) : ℚ :=
  if groupVarCode (normalVals data f) + groupVarCode (anomalyVals data f) = 0 then
    |groupMeanCode (normalVals data f) - groupMeanCode (anomalyVals data f)|
  else
    |groupMeanCode (normalVals data f) - groupMeanCode (anomalyVals data f)| /
      sqrtF (groupVarCode (normalVals data f) + groupVarCode (anomalyVals data f))

/-- The `importances` array of `calculateFeatureImportance`: one raw score per
numeric feature, in column order. -/
def importancesList (sqrtF : ℚ → ℚ) (data : List Record) : List (String × ℚ) :=
  (numericFeatures data).map (fun f => (f, rawScore sqrtF data f))

/-- Model of `totalScore = importances.reduce((sum, item) => sum + item.value, 0)`. -/
def totalScore (sqrtF : ℚ → ℚ) (data : List Record) : ℚ :=
  ((importancesList sqrtF data).map Prod.snd).sum

/-- The `normalizedImportances` array:
`value: totalScore === 0 ? 0 : item.value / totalScore`. -/
def normalizedImportances (sqrtF : ℚ → ℚ) (data : List Record) :
    List (String × ℚ) :=
  (importancesList sqrtF data).map
    (fun p => (p.1, if totalScore sqrtF data = 0 then 0 else p.2 / totalScore sqrtF data))

/-- Model of `calculateFeatureImportance` (`Dashboard.tsx` lines 220-274): raw scores per
numeric feature, normalized by the total (0 when the total is 0), sorted in
descending order of value.  The JS `sort((a, b) => b.value - a.value)` is
modelled by insertion sort under the relation `b.2 ≤ a.2`. -/
def calculateFeatureImportance (sqrtF : ℚ → ℚ) (data : List Record) :
    List (String × ℚ) :=
  List.insertionSort (fun a b : String × ℚ => b.2 ≤ a.2)
    (normalizedImportances sqrtF data)

/-- The specification's per-group mean, written from §4.2's words ("Compute
each group's mean"); Lean's `x / 0 = 0` convention handles the empty group. -/
def specMean (l : List ℚ) : ℚ :=
  l.sum / l.length

/-- The specification's per-group population variance, written from §4.2's
words ("population variance"). -/
def specPopVar (l : List ℚ) : ℚ :=
  (l.map (fun v => (v - specMean l) ^ 2)).sum / l.length

/-! ## Equipment visualizations from a dataset (`createEquipmentVisualizations`) -/

/-- Minimum of a list of rationals (`Math.min(...values)`; only called on
non-empty lists by the guarded code, `0` as the default for `[]`). -/
def listMin : List ℚ → ℚ
  | [] => 0
  | x :: xs => xs.foldl min x

/-- Maximum of a list of rationals (`Math.max(...values)`). -/
def listMax : List ℚ → ℚ
  | [] => 0
  | x :: xs => xs.foldl max x

/-- Model of `item.timestamp || Point ${i+1}` (empty string is falsy in JS). -/
def pointTimestamp (r : Record) (i : ℕ) : String :=
  match getField r "timestamp" with
  | some (Value.str s) => if s = "" then "Point " ++ toString (i + 1) else s
  | _ => "Point " ++ toString (i + 1)

/-- The data points of one feature's visualization (`Dashboard.tsx` lines
185-195): one point per record of `data.slice(0, 20)`, `isAnomaly` taken from
the `Prediction` label. -/
def mkDataPoints (f : String) (nr : Range) : ℕ → List Record → List DataPoint
  | _, [] => []
  | i, r :: rs =>
      { timestamp := pointTimestamp r i
        value := getNum r f
        normalRange := nr
        isAnomaly := isFailure r } :: mkDataPoints f nr (i + 1) rs

/-- One equipment visualization for one numeric feature
(`Dashboard.tsx` lines 176-209). -/
def mkEquipment (data : List Record) (f : String) (index : ℕ) : Equipment :=
  let values := data.map (fun r => getNum r f)
  let mn := listMin values
  let mx := listMax values
  let normalMin := mn + (mx - mn) * (1 / 10)
  let normalMax := mx - (mx - mn) * (1 / 10)
  let nr : Range := { min := normalMin, max := normalMax }
  let dataPoints := mkDataPoints f nr 0 (data.take 20)
  let latestValue := ((dataPoints.getLast?).map DataPoint.value).getD 0
  let isLatestAnomaly := ((dataPoints.getLast?).map DataPoint.isAnomaly).getD false
  { id := "feature-" ++ toString index
    name := f
    data := dataPoints
    currentValue := latestValue
    normalRange := nr
    status := if isLatestAnomaly then Status.anomaly else Status.normal }

/-- Model of `createEquipmentVisualizations` (`Dashboard.tsx` lines 165-217), the list of
generated equipments (empty when the dataset is empty, per the guard). -/
def createEquipmentVisualizations (d : Dataset) : List Equipment :=
  match d.data with
  | [] => []
  | _ =>
    ((numericFeatures d.data).enum).map (fun p => mkEquipment d.data p.2 p.1)

/-! ## Hardware-connection simulation (`generateSampleHardwareData`) -/

/-- The pump-pressure channel's data (`Dashboard.tsx` lines 283-292): value
`50 + Math.random()*20`, `isAnomaly` hard-coded at index 17.  `rand i` models
the `Math.random()` draw for point `i`; wall-clock timestamps are abstracted to
an index-based label. -/
def pumpDataPoints (rand : ℕ → ℚ) : List DataPoint :=
  (List.range 20).map fun i =>
    { timestamp := "t-" ++ toString i
      value := 50 + rand i * 20
      normalRange := { min := 55, max := 65 }
      isAnomaly := i = 17 }

/-- The motor-temperature channel's data (`Dashboard.tsx` lines 300-309):
value `85 + Math.random()*10`, `isAnomaly` hard-coded at the last two indices. -/
def motorDataPoints (rand : ℕ → ℚ) : List DataPoint :=
  (List.range 20).map fun i =>
    { timestamp := "t-" ++ toString i
      value := 85 + rand i * 10
      normalRange := { min := 80, max := 90 }
      isAnomaly := 18 ≤ i }

/-- The flow-rate channel's data (`Dashboard.tsx` lines 317-326):
value `120 + Math.random()*20`, `isAnomaly` hard-coded `false`. -/
def flowDataPoints (rand : ℕ → ℚ) : List DataPoint :=
  (List.range 20).map fun i =>
    { timestamp := "t-" ++ toString i
      value := 120 + rand i * 20
      normalRange := { min := 110, max := 140 }
      isAnomaly := false }

/-- Model of `generateSampleHardwareData` (`Dashboard.tsx` lines 277-357), the generated
channel list.  Each channel consumes its own slice of the random stream. -/
def generateSampleHardwareData (rand : ℕ → ℚ) : List Equipment :=
  [ { id := "pump-1", name := "Pump Pressure"
      data := pumpDataPoints rand
      currentValue := 67, normalRange := { min := 55, max := 65 }
      status := Status.warning }
  , { id := "motor-1", name := "Motor Temperature"
      data := motorDataPoints (fun i => rand (20 + i))
      currentValue := 95, normalRange := { min := 80, max := 90 }
      status := Status.anomaly }
  , { id := "flow-1", name := "Flow Rate"
      data := flowDataPoints (fun i => rand (40 + i))
      currentValue := 128, normalRange := { min := 110, max := 140 }
      status := Status.normal } ]

/-! ## Dataset loading (`processDatasetForDashboard`) -/

/-- Model of `processDatasetForDashboard` (`Dashboard.tsx` lines 136-162): early return
on an empty dataset, otherwise set run info (already complete), the anomaly
distribution, the equipment visualizations and the feature importance. -/
def processDatasetForDashboard (sqrtF : ℚ → ℚ) (d : Dataset) (s : DashState) :
    DashState :=
  match d.data with
  | [] => s
  | _ =>
    let anomalyCount := (d.data.filter isFailure).length
    let generated := createEquipmentVisualizations d
    { s with
      runInfo :=
        { totalPoints := d.records
          processedPoints := d.records
          anomaliesFound := anomalyCount
          isComplete := true }
      anomalyDist :=
        { normal := (d.data.filter isNoFailure).length
          warning := 0
          anomaly := anomalyCount }
      equipments := generated
      selectedEquipment :=
        match generated, s.selectedEquipment with
        | e :: _, none => some e.id
        | _, sel => sel
      featureImportance := calculateFeatureImportance sqrtF d.data }

/-! ## Playback controller -/

/-- One playback tick's effect on the run info (`Dashboard.tsx` lines 113-126):
`newProcessed = Math.min(processedPoints + 5 * playbackSpeed, totalPoints)`,
`isComplete = newProcessed >= totalPoints`. -/
def tickRun (speed : ℚ) (r : RunInfo) : RunInfo :=
  let newProcessed := min (r.processedPoints + 5 * speed) r.totalPoints
  { r with
    processedPoints := newProcessed
    isComplete := r.totalPoints ≤ newProcessed }

/-- A scheduled tick: the interval only runs while `!runInfo.isComplete`
(`Dashboard.tsx` line 112), so a tick against a complete run does not fire
and leaves the state unchanged. -/
def tickStep (speed : ℚ) (r : RunInfo) : RunInfo :=
  if r.isComplete then r else tickRun speed r

/-- Runs `n` successive scheduled ticks. -/
def runTicks (speed : ℚ) : ℕ → RunInfo → RunInfo
  | 0, r => r
  | n + 1, r => runTicks speed n (tickStep speed r)

/-- Model of `restartPlayback` on the run info (`Dashboard.tsx` lines 392-399). -/
def restartRun (r : RunInfo) : RunInfo :=
  { r with processedPoints := 0, isComplete := false }

/-- The run info written by a non-empty dataset load
(`Dashboard.tsx` lines 143-148). -/
def loadRun (records anomalyCount : ℕ) : RunInfo :=
  { totalPoints := records, processedPoints := records
    anomaliesFound := anomalyCount, isComplete := true }

/-- Model of `restartPlayback` on the dashboard state (`Dashboard.tsx` lines 392-399):
reset progress and completion, start playing; everything else untouched. -/
def restartPlayback (s : DashState) : DashState :=
  { s with runInfo := restartRun s.runInfo, isPlaying := true }

/-- The `RunInfo` invariant of the specification:
`0 ≤ processedPoints ≤ totalPoints` and
`isComplete ⟺ processedPoints == totalPoints`. -/
def runInfoInv (r : RunInfo) : Prop :=
  0 ≤ r.processedPoints ∧ r.processedPoints ≤ r.totalPoints ∧
    (r.isComplete = true ↔ r.processedPoints = r.totalPoints)

instance (r : RunInfo) : Decidable (runInfoInv r) :=
  inferInstanceAs (Decidable (_ ∧ _ ∧ _))

/-! ## Per-tick channel refresh (`updateEquipmentVisualization`) -/

/-- A junk data point used only as the `getD` default (the JS code indexes
unguardedly; every reachable call indexes in bounds). -/
def defaultDataPoint : DataPoint :=
  { timestamp := "", value := 0, normalRange := { min := 0, max := 0 }
    isAnomaly := false }

/-- The latest visible data point of a channel at a given playback progress
(`Dashboard.tsx` lines 366-369):
`pointsToShow = Math.max(1, Math.floor(data.length * progress))`, then
`data[pointsToShow - 1]`. -/
def latestVisible (progress : ℚ) (e : Equipment) : DataPoint :=
  let pointsToShow : ℤ := max 1 ⌊(e.data.length : ℚ) * progress⌋
  e.data.getD (pointsToShow - 1).toNat defaultDataPoint

/-- The per-channel update of one tick (`Dashboard.tsx` lines 364-378). -/
def updateOneEquipment (progress : ℚ) (e : Equipment) : Equipment :=
  let latest := latestVisible progress e
  { e with
    currentValue := latest.value
    status :=
      if latest.isAnomaly then Status.anomaly
      else if latest.value > e.normalRange.max ∨ latest.value < e.normalRange.min then
        Status.warning
      else Status.normal }

/-- Model of `updateEquipmentVisualization` (`Dashboard.tsx` lines 360-381): no-op on an
empty channel list, otherwise update every channel. -/
def updateEquipmentVisualization (progress : ℚ) (eqs : List Equipment) :
    List Equipment :=
  match eqs with
  | [] => []
  | _ => eqs.map (updateOneEquipment progress)

/-! ## Upload flow (`Upload.tsx`, `handleUpload`) -/

/-- The prediction endpoint's response as the upload handler consumes it. -/
structure HttpResponse where
  ok : Bool
  status : ℕ
  bodyText : String
  jsonData : List Record

/-- What the upload flow produced: the error banner, the dataset handed to the
dashboard, and whether navigation to the dashboard was triggered. -/
structure UploadOutcome where
  uploadError : Option String
  currentDataset : Option Dataset
  navigatedToDashboard : Bool
  uploadComplete : Bool

/-- The error message thrown on a non-2xx response (`Upload.tsx` line 122):
`Server responded with ${status}: ${text}`. -/
def uploadErrorMessage (status : ℕ) (bodyText : String) : String :=
  "Server responded with " ++ toString status ++ ": " ++ bodyText

/-- Model of `handleUpload` for the uploaded-file path (`Upload.tsx` lines 88-161): on
`!response.ok` the thrown error is caught, its message becomes the single
error string, and neither `setCurrentDataset` nor `navigate` runs; on success
the dataset is assembled from the JSON records and navigation is scheduled. -/
def handleUpload (resp : HttpResponse) : UploadOutcome :=
  if resp.ok then
    let predictionData := resp.jsonData
    { uploadError := none
      currentDataset := some { records := predictionData.length, data := predictionData }
      navigatedToDashboard := true
      uploadComplete := true }
  else
    { uploadError := some (uploadErrorMessage resp.status resp.bodyText)
      currentDataset := none
      navigatedToDashboard := false
      uploadComplete := false }

/-! ## Concrete scenario data -/

/-- A record with a single numeric feature `temp` and a `Prediction` label. -/
def mkTempRecord (t : ℚ) (p : String) : Record :=
  [("temp", Value.num t), ("Prediction", Value.str p)]

/-- The §8.5 scenario dataset: normal group `temp` values `[10, 10]`, failure
group `temp` values `[20, 20]`. -/
def scenarioTempData : List Record :=
  [mkTempRecord 10 "No Failure", mkTempRecord 10 "No Failure",
   mkTempRecord 20 "Failure", mkTempRecord 20 "Failure"]

/-- A dataset whose middle record is labelled `"Failure"` while its `temp`
value 5 sits inside the derived normal range `[1, 9]` (from values 0..10 with
the 10% buffer). -/
def cexAnomalyDataset : Dataset :=
  { records := 3
    data := [mkTempRecord 0 "No Failure", mkTempRecord 5 "Failure",
             mkTempRecord 10 "No Failure"] }

/-- The data points the counterexample dataset's `temp` channel is built from:
the middle one is labelled `"Failure"` (so `isAnomaly = true`) with the
in-range value 5. -/
def cexPoint0 : DataPoint :=
  { timestamp := pointTimestamp (mkTempRecord 0 "No Failure") 0, value := 0
    normalRange := { min := 1, max := 9 }, isAnomaly := false }

/-- See `cexPoint0`. -/
def cexPoint1 : DataPoint :=
  { timestamp := pointTimestamp (mkTempRecord 5 "Failure") 1, value := 5
    normalRange := { min := 1, max := 9 }, isAnomaly := true }

/-- See `cexPoint0`. -/
def cexPoint2 : DataPoint :=
  { timestamp := pointTimestamp (mkTempRecord 10 "No Failure") 2, value := 10
    normalRange := { min := 1, max := 9 }, isAnomaly := false }

/-- The §8.6 playback scenario's starting run info:
`totalPoints = 100`, `processedPoints = 0`. -/
def c5Start : RunInfo :=
  { totalPoints := 100, processedPoints := 0, anomaliesFound := 0, isComplete := false }

/-- A concrete mid-run state used to instantiate the C2 invariant theorem. -/
def c2WitnessRun : RunInfo :=
  { totalPoints := 100, processedPoints := 40, anomaliesFound := 2, isComplete := false }

/-- A channel whose single (latest) sample is not flagged as an anomaly but
whose value 70 exceeds the normal range `[55, 65]`. -/
def warningDemoEquipment : Equipment :=
  { id := "demo-1", name := "Demo Channel"
    data := [{ timestamp := "t-0", value := 70
               normalRange := { min := 55, max := 65 }, isAnomaly := false }]
    currentValue := 70
    normalRange := { min := 55, max := 65 }
    status := Status.normal }

/-! ## Helper lemmas -/

/-- The `isAnomaly` flags of a feature's visualization points are exactly the
`Prediction === "Failure"` labels of the underlying records. -/
theorem mkDataPoints_isAnomaly (f : String) (nr : Range) :
    ∀ (i : ℕ) (rs : List Record),
      (mkDataPoints f nr i rs).map DataPoint.isAnomaly = rs.map isFailure := by
  intro i rs
  induction rs generalizing i with
  | nil => rfl
  | cons r rs ih => simp [mkDataPoints, ih]

/-- The code's guarded mean (`/ Math.max(len, 1)`) agrees with the
specification's mean under Lean's division-by-zero convention. -/
theorem groupMeanCode_eq_specMean (l : List ℚ) : groupMeanCode l = specMean l := by
  cases l with
  | nil => simp [groupMeanCode, specMean]
  | cons x xs =>
    have h : max (x :: xs).length 1 = (x :: xs).length := by
      simp [List.length_cons]
    rw [groupMeanCode, specMean, h]

/-- The code's guarded population variance agrees with the specification's. -/
theorem groupVarCode_eq_specPopVar (l : List ℚ) : groupVarCode l = specPopVar l := by
  cases l with
  | nil => simp [groupVarCode, specPopVar]
  | cons x xs =>
    have h : max (x :: xs).length 1 = (x :: xs).length := by
      simp [List.length_cons]
    rw [groupVarCode, specPopVar, groupMeanCode_eq_specMean, h]

/-- The code's group variance is nonnegative. -/
theorem groupVarCode_nonneg (l : List ℚ) : 0 ≤ groupVarCode l := by
  unfold groupVarCode
  apply div_nonneg
  · apply List.sum_nonneg
    intro x hx
    obtain ⟨v, _, rfl⟩ := List.mem_map.mp hx
    positivity
  · positivity

/-- Raw scores are nonnegative whenever the square-root model is positive on
positive inputs. -/
theorem rawScore_nonneg (sqrtF : ℚ → ℚ) (h : ∀ x : ℚ, 0 < x → 0 < sqrtF x)
    (data : List Record) (f : String) : 0 ≤ rawScore sqrtF data f := by
  unfold rawScore
  have hv : 0 ≤ groupVarCode (normalVals data f) + groupVarCode (anomalyVals data f) :=
    add_nonneg (groupVarCode_nonneg _) (groupVarCode_nonneg _)
  split
  · exact abs_nonneg _
  · next hne =>
      exact div_nonneg (abs_nonneg _) (le_of_lt (h _ (lt_of_le_of_ne hv (Ne.symm hne))))

/-- Distributing a list sum over division. -/
theorem list_sum_map_div (l : List ℚ) (t : ℚ) :
    (l.map (fun q => q / t)).sum = l.sum / t := by
  induction l with
  | nil => simp
  | cons x xs ih => simp [ih, add_div]

instance : IsTotal (String × ℚ) (fun a b => b.2 ≤ a.2) :=
  ⟨fun a b => le_total b.2 a.2⟩

instance : IsTrans (String × ℚ) (fun a b => b.2 ≤ a.2) :=
  ⟨fun _ _ _ hab hbc => le_trans hbc hab⟩

/-! ## Evaluation lemmas for the concrete scenarios -/

/-- The normal-group `temp` values of the §8.5 scenario dataset. -/
theorem normalVals_scen : normalVals scenarioTempData "temp" = [10, 10] := by
  simp [normalVals, scenarioTempData, List.filter, isNoFailure, getField,
    mkTempRecord, List.find?, getNum]

/-- The failure-group `temp` values of the §8.5 scenario dataset. -/
theorem anomalyVals_scen : anomalyVals scenarioTempData "temp" = [20, 20] := by
  simp [anomalyVals, scenarioTempData, List.filter, isFailure, getField,
    mkTempRecord, List.find?, getNum]

/-- Both scenario groups have zero variance, so the raw score falls back to the
absolute mean difference `|10 - 20| = 10`, for any square-root model. -/
theorem rawScore_scen (sqrtF : ℚ → ℚ) : rawScore sqrtF scenarioTempData "temp" = 10 := by
  norm_num [rawScore, normalVals_scen, anomalyVals_scen, groupVarCode, groupMeanCode]

/-- The scenario dataset has the single numeric feature `temp`. -/
theorem numericFeatures_scen : numericFeatures scenarioTempData = ["temp"] := by
  simp [numericFeatures, scenarioTempData, mkTempRecord, isNumField, getField,
    List.find?]

/-- With one feature of score 10, normalization yields importance 1. -/
theorem calcFI_scen (sqrtF : ℚ → ℚ) :
    calculateFeatureImportance sqrtF scenarioTempData = [("temp", 1)] := by
  norm_num [calculateFeatureImportance, normalizedImportances, importancesList,
    totalScore, numericFeatures_scen, rawScore_scen]

/-- The counterexample dataset's single numeric feature is `temp`. -/
theorem numericFeatures_cex : numericFeatures cexAnomalyDataset.data = ["temp"] := by
  simp [numericFeatures, cexAnomalyDataset, mkTempRecord, isNumField, getField,
    List.find?]

/-- The counterexample dataset produces exactly one channel. -/
theorem cexChannels_eval : createEquipmentVisualizations cexAnomalyDataset =
    [mkEquipment cexAnomalyDataset.data "temp" 0] := by
  rw [createEquipmentVisualizations]
  rw [show cexAnomalyDataset.data =
        [mkTempRecord 0 "No Failure", mkTempRecord 5 "Failure",
         mkTempRecord 10 "No Failure"] from rfl]
  rw [← show cexAnomalyDataset.data =
        [mkTempRecord 0 "No Failure", mkTempRecord 5 "Failure",
         mkTempRecord 10 "No Failure"] from rfl]
  rw [numericFeatures_cex]
  rfl

/-- The counterexample channel's derived normal range is `[1, 9]`
(10% buffer on values 0..10). -/
theorem cexRange_eval :
    (mkEquipment cexAnomalyDataset.data "temp" 0).normalRange
      = { min := 1, max := 9 } := by
  norm_num [mkEquipment, cexAnomalyDataset, listMin, listMax, mkTempRecord,
    getNum, getField, List.find?, min_def, max_def]

/-- The `Prediction` lookup on a two-field `temp` record. -/
theorem isFailure_mkTemp (t : ℚ) (p : String) :
    isFailure (mkTempRecord t p) = decide (p = "Failure") := by
  simp [isFailure, mkTempRecord, getField, List.find?]

/-- The `temp` lookup on a two-field `temp` record. -/
theorem getNum_mkTemp (t : ℚ) (p : String) : getNum (mkTempRecord t p) "temp" = t := by
  simp [getNum, mkTempRecord, getField, List.find?]

/-- The counterexample channel's data points: the middle one carries
`isAnomaly = true` with the in-range value 5. -/
theorem cexData_eval :
    (mkEquipment cexAnomalyDataset.data "temp" 0).data
      = [cexPoint0, cexPoint1, cexPoint2] := by
  norm_num [mkEquipment, mkDataPoints, cexAnomalyDataset, listMin, listMax,
    getNum_mkTemp, isFailure_mkTemp, min_def, max_def,
    cexPoint0, cexPoint1, cexPoint2]
  decide

/-! ## Claim theorems -/

/-- C1, counterexample: in the dataset-derived visualization the second data
point of the `temp` channel has `isAnomaly = true` (its record is labelled
`"Failure"`) although its value 5 lies inside the channel's normal range
`[1, 9]`, so `isAnomaly` does not equal the range check. -/
theorem c1_range_check_counterexample :
    ¬ (∀ e ∈ createEquipmentVisualizations cexAnomalyDataset, ∀ dp ∈ e.data,
        (dp.isAnomaly = true ↔
          (dp.value < e.normalRange.min ∨ dp.value > e.normalRange.max))) := by
  intro h
  have hmemE : mkEquipment cexAnomalyDataset.data "temp" 0
      ∈ createEquipmentVisualizations cexAnomalyDataset := by
    rw [cexChannels_eval]
    exact List.mem_singleton.mpr rfl
  have hmemP : cexPoint1 ∈ (mkEquipment cexAnomalyDataset.data "temp" 0).data := by
    rw [cexData_eval]
    exact List.mem_cons_of_mem _ (List.mem_cons_self _ _)
  have h3 := (h _ hmemE _ hmemP).mp rfl
  rw [cexRange_eval] at h3
  norm_num [cexPoint1] at h3

/-- C1, amended: a sample's `isAnomaly` flag is not a range check.  In the
dataset-derived visualization it equals the record's `Prediction === "Failure"`
label; in the hardware simulation it is hard-coded per index (index 17 for the
pump channel, indices 18-19 for the motor channel, never for the flow channel),
independent of the drawn value. -/
theorem c1_anomaly_flag_sources : ∀ (d : Dataset) (rand : ℕ → ℚ),
    (∀ e ∈ createEquipmentVisualizations d,
        e.data.map DataPoint.isAnomaly = (d.data.take 20).map isFailure)
    ∧ (generateSampleHardwareData rand).map (fun e => e.data.map DataPoint.isAnomaly)
        = [(List.range 20).map (fun i => decide (i = 17)),
           (List.range 20).map (fun i => decide (18 ≤ i)),
           (List.range 20).map (fun _ => false)] := by
  intro d rand
  constructor
  · intro e he
    unfold createEquipmentVisualizations at he
    match hd : d.data with
    | [] => rw [hd] at he; simp at he
    | r :: rs =>
      rw [hd] at he
      simp only [List.mem_map] at he
      obtain ⟨p, _, rfl⟩ := he
      rw [← hd]
      exact mkDataPoints_isAnomaly _ _ 0 (d.data.take 20)
  · rfl

/-- C2, counterexample: from the initial run info (reachable with an empty
dataset loaded, where the loader is a no-op) a tick is enabled
(`isComplete = false`), completes the run at `processedPoints = totalPoints
= 0`, and the then-enabled restart produces `isComplete = false` with
`processedPoints = totalPoints`, violating the invariant. -/
theorem c2_invariant_counterexample :
    initRunInfo.isComplete = false
    ∧ (tickRun 1 initRunInfo).isComplete = true
    ∧ ¬ runInfoInv (restartRun (tickRun 1 initRunInfo)) := by
  refine ⟨rfl, ?_, ?_⟩
  · norm_num [tickRun, initRunInfo, min_def]
  · norm_num [runInfoInv, restartRun, tickRun, initRunInfo, min_def]

/-- C2, amended: from any run info satisfying the bounds
`0 ≤ processedPoints ≤ totalPoints`, a tick (at nonnegative speed)
re-establishes the full invariant without decreasing `processedPoints`, a
dataset load establishes it, and restart preserves the bounds and
re-establishes the full invariant whenever `totalPoints ≠ 0` (restart at
`totalPoints = 0` leaves `isComplete = false` with
`processedPoints = totalPoints`). -/
theorem c2_invariant_preservation : ∀ (r : RunInfo) (speed : ℚ) (records anomalies : ℕ),
    0 ≤ speed → 0 ≤ r.processedPoints → r.processedPoints ≤ r.totalPoints →
    runInfoInv (tickRun speed r)
    ∧ r.processedPoints ≤ (tickRun speed r).processedPoints
    ∧ runInfoInv (loadRun records anomalies)
    ∧ 0 ≤ (restartRun r).processedPoints
    ∧ (restartRun r).processedPoints ≤ (restartRun r).totalPoints
    ∧ (r.totalPoints ≠ 0 → runInfoInv (restartRun r)) := by
  intro r speed records anomalies hs hp hpt
  have ht : (0 : ℚ) ≤ r.totalPoints := le_trans hp hpt
  refine ⟨⟨?_, ?_, ?_⟩, ?_, ⟨?_, ?_, ?_⟩, ?_, ?_, ?_⟩
  · exact le_min (by linarith) ht
  · exact min_le_right _ _
  · show decide (r.totalPoints ≤ min (r.processedPoints + 5 * speed) r.totalPoints) = true ↔ _
    rw [decide_eq_true_eq]
    constructor
    · intro hle
      exact le_antisymm (min_le_right _ _) hle
    · intro heq
      exact heq.symm.le
  · exact le_min (by linarith) hpt
  · exact Nat.cast_nonneg records
  · exact le_refl _
  · simp [loadRun]
  · exact le_refl 0
  · exact ht
  · intro h0
    refine ⟨le_refl 0, ht, ?_⟩
    simp [restartRun]
    exact fun heq => absurd heq.symm h0

/-- C2 witness: the amended statement at a concrete mid-run state. -/
theorem c2_invariant_preservation_witness :
    runInfoInv (tickRun 1 c2WitnessRun)
    ∧ c2WitnessRun.processedPoints ≤ (tickRun 1 c2WitnessRun).processedPoints
    ∧ runInfoInv (loadRun 10 3)
    ∧ 0 ≤ (restartRun c2WitnessRun).processedPoints
    ∧ (restartRun c2WitnessRun).processedPoints ≤ (restartRun c2WitnessRun).totalPoints
    ∧ (c2WitnessRun.totalPoints ≠ 0 → runInfoInv (restartRun c2WitnessRun)) :=
  c2_invariant_preservation c2WitnessRun 1 10 3 (by norm_num)
    (by norm_num [c2WitnessRun]) (by norm_num [c2WitnessRun])

/-- C5: each fired tick advances `processedPoints` by exactly `5 × speed`,
clamped to `totalPoints`; in the §8.6 scenario (`totalPoints = 100`,
`speed = 2`) one tick reaches 10, ten ticks reach 100 with `isComplete`, and
an eleventh tick does not fire and leaves the state unchanged. -/
theorem c5_tick_advance :
    (∀ (r : RunInfo) (speed : ℚ),
        (tickRun speed r).processedPoints =
          min (r.processedPoints + 5 * speed) r.totalPoints)
    ∧ (runTicks 2 1 c5Start).processedPoints = 10
    ∧ (runTicks 2 10 c5Start).processedPoints = 100
    ∧ (runTicks 2 10 c5Start).isComplete = true
    ∧ tickStep 2 (runTicks 2 10 c5Start) = runTicks 2 10 c5Start
    ∧ runTicks 2 11 c5Start = runTicks 2 10 c5Start := by
  have h10 : runTicks 2 10 c5Start =
      { totalPoints := 100, processedPoints := 100, anomaliesFound := 0,
        isComplete := true } := by
    norm_num [runTicks, tickStep, tickRun, c5Start, min_def]
  refine ⟨fun r speed => rfl, ?_, ?_, ?_, ?_, ?_⟩
  · norm_num [runTicks, tickStep, tickRun, c5Start, min_def]
  · rw [h10]
  · rw [h10]
  · rw [h10]; rfl
  · show runTicks 2 10 (tickStep 2 c5Start) = runTicks 2 10 c5Start
    norm_num [runTicks, tickStep, tickRun, c5Start, min_def]

/-- C6, counterexample: loading an empty dataset does not produce the run info
`{0, 0, 0, true}` — the loader returns early and the initial run info (whose
`isComplete` is `false`) survives unchanged. -/
theorem c6_empty_dataset_counterexample :
    ¬ ((processDatasetForDashboard (fun q => q) { records := 0, data := [] }
          initDashState).runInfo
        = { totalPoints := 0, processedPoints := 0, anomaliesFound := 0,
            isComplete := true }) := by
  intro h
  have : (initRunInfo.isComplete = true) := by
    rw [show initRunInfo =
          (processDatasetForDashboard (fun q => q) { records := 0, data := [] }
            initDashState).runInfo from rfl, h]
  exact Bool.false_ne_true this

/-- C6, amended: loading an empty dataset is a total no-op: it leaves the
dashboard state untouched, so from the initial state the feature-importance
list is empty and the run info is `{0, 0, 0, false}` (`isComplete` stays
`false`, not `true`). -/
theorem c6_empty_dataset_noop : ∀ (sqrtF : ℚ → ℚ) (d : Dataset) (s : DashState),
    d.data = [] →
    processDatasetForDashboard sqrtF d s = s
    ∧ (processDatasetForDashboard sqrtF { records := 0, data := [] }
         initDashState).featureImportance = []
    ∧ (processDatasetForDashboard sqrtF { records := 0, data := [] }
         initDashState).runInfo
        = { totalPoints := 0, processedPoints := 0, anomaliesFound := 0,
            isComplete := false } := by
  intro sqrtF d s hd
  refine ⟨?_, rfl, rfl⟩
  unfold processDatasetForDashboard
  rw [hd]

/-- C6 witness: the amended statement at the empty dataset and initial state. -/
theorem c6_empty_dataset_noop_witness :
    processDatasetForDashboard (fun q => q) { records := 0, data := [] }
        initDashState = initDashState
    ∧ (processDatasetForDashboard (fun q => q) { records := 0, data := [] }
         initDashState).featureImportance = []
    ∧ (processDatasetForDashboard (fun q => q) { records := 0, data := [] }
         initDashState).runInfo
        = { totalPoints := 0, processedPoints := 0, anomaliesFound := 0,
            isComplete := false } :=
  c6_empty_dataset_noop (fun q => q) { records := 0, data := [] } initDashState rfl

/-- C7: restart zeroes `processedPoints`, clears `isComplete`, starts playback,
and leaves `totalPoints`, `anomaliesFound`, the channel list (identities,
names, ranges and sample data included), the feature importance and the
selection unchanged. -/
theorem c7_restart_frame : ∀ s : DashState,
    (restartPlayback s).runInfo.processedPoints = 0
    ∧ (restartPlayback s).runInfo.isComplete = false
    ∧ (restartPlayback s).isPlaying = true
    ∧ (restartPlayback s).runInfo.totalPoints = s.runInfo.totalPoints
    ∧ (restartPlayback s).runInfo.anomaliesFound = s.runInfo.anomaliesFound
    ∧ (restartPlayback s).equipments = s.equipments
    ∧ (restartPlayback s).featureImportance = s.featureImportance
    ∧ (restartPlayback s).selectedEquipment = s.selectedEquipment :=
  fun _ => ⟨rfl, rfl, rfl, rfl, rfl, rfl, rfl, rfl⟩

/-- C8: on a non-2xx response the upload flow reports exactly one error string,
which carries the response body text as a suffix, sets no dataset and does not
navigate to the dashboard. -/
theorem c8_upload_error : ∀ resp : HttpResponse, resp.ok = false →
    (handleUpload resp).uploadError
      = some (uploadErrorMessage resp.status resp.bodyText)
    ∧ (∃ p, uploadErrorMessage resp.status resp.bodyText = p ++ resp.bodyText)
    ∧ (handleUpload resp).currentDataset = none
    ∧ (handleUpload resp).navigatedToDashboard = false := by
  intro resp h
  refine ⟨?_, ⟨"Server responded with " ++ toString resp.status ++ ": ", rfl⟩, ?_, ?_⟩
  all_goals simp [handleUpload, h]

/-- C8 witness: the error path at a concrete 500 response with body `"boom"`. -/
theorem c8_upload_error_witness :
    (handleUpload { ok := false, status := 500, bodyText := "boom",
                    jsonData := [] }).uploadError
      = some (uploadErrorMessage 500 "boom")
    ∧ (∃ p, uploadErrorMessage 500 "boom" = p ++ "boom")
    ∧ (handleUpload { ok := false, status := 500, bodyText := "boom",
                      jsonData := [] }).currentDataset = none
    ∧ (handleUpload { ok := false, status := 500, bodyText := "boom",
                      jsonData := [] }).navigatedToDashboard = false :=
  c8_upload_error { ok := false, status := 500, bodyText := "boom", jsonData := [] } rfl

/-- C10: a tick's channel refresh applies the three-way rule to every channel —
`anomaly` exactly when the latest visible sample's flag is set, else `warning`
exactly when that sample's value is strictly outside the channel's normal
range, else `normal` — and the `warning` tier is actually produced by this
path, e.g. for an out-of-range value that is not flagged as an anomaly. -/
theorem c10_status_rule : ∀ (progress : ℚ) (eqs : List Equipment) (e : Equipment),
    updateEquipmentVisualization progress eqs = eqs.map (updateOneEquipment progress)
    ∧ (updateOneEquipment progress e).status =
        (if (latestVisible progress e).isAnomaly then Status.anomaly
         else if (latestVisible progress e).value > e.normalRange.max ∨
                 (latestVisible progress e).value < e.normalRange.min then
           Status.warning
         else Status.normal)
    ∧ (updateOneEquipment 1 warningDemoEquipment).status = Status.warning
    ∧ (latestVisible 1 warningDemoEquipment).isAnomaly = false
    ∧ ((latestVisible 1 warningDemoEquipment).value >
          warningDemoEquipment.normalRange.max
       ∨ (latestVisible 1 warningDemoEquipment).value <
          warningDemoEquipment.normalRange.min) := by
  intro progress eqs e
  have hlat : latestVisible 1 warningDemoEquipment =
      { timestamp := "t-0", value := 70, normalRange := { min := 55, max := 65 },
        isAnomaly := false } := by
    norm_num [latestVisible, warningDemoEquipment, defaultDataPoint]
  refine ⟨?_, rfl, ?_, ?_, ?_⟩
  · cases eqs with
    | nil => rfl
    | cons a l => rfl
  · rw [show (updateOneEquipment 1 warningDemoEquipment).status =
        (if (latestVisible 1 warningDemoEquipment).isAnomaly then Status.anomaly
         else if (latestVisible 1 warningDemoEquipment).value >
                   warningDemoEquipment.normalRange.max ∨
                 (latestVisible 1 warningDemoEquipment).value <
                   warningDemoEquipment.normalRange.min then Status.warning
         else Status.normal) from rfl, hlat]
    norm_num [warningDemoEquipment]
  · rw [hlat]
  · rw [hlat]
    norm_num [warningDemoEquipment]

/-- C3: the raw feature score is
`|mean_normal - mean_failure| / sqrt(var_normal + var_failure)` with each
group's mean and population variance, falling back to the raw absolute mean
difference when the variance sum is zero; in the §8.5 scenario (normal values
`[10, 10]`, failure values `[20, 20]`) the score is 10 and the normalized
importance of `temp` is 1. -/
theorem c3_score_formula : ∀ (sqrtF : ℚ → ℚ) (data : List Record) (f : String),
    rawScore sqrtF data f =
      (if specPopVar (normalVals data f) + specPopVar (anomalyVals data f) = 0 then
         |specMean (normalVals data f) - specMean (anomalyVals data f)|
       else
         |specMean (normalVals data f) - specMean (anomalyVals data f)| /
           sqrtF (specPopVar (normalVals data f) + specPopVar (anomalyVals data f)))
    ∧ rawScore sqrtF scenarioTempData "temp" = 10
    ∧ calculateFeatureImportance sqrtF scenarioTempData = [("temp", 1)] := by
  intro sqrtF data f
  refine ⟨?_, rawScore_scen sqrtF, calcFI_scen sqrtF⟩
  unfold rawScore
  simp only [groupMeanCode_eq_specMean, groupVarCode_eq_specPopVar]

/-- C4: under a square-root model positive on positive inputs, every normalized
importance lies in `[0, 1]`; they sum to 1 whenever some feature has a nonzero
raw score; and they are all exactly 0 when every raw score is 0. -/
theorem c4_normalized_scores : ∀ (sqrtF : ℚ → ℚ) (data : List Record),
    (∀ x : ℚ, 0 < x → 0 < sqrtF x) →
    (∀ p ∈ calculateFeatureImportance sqrtF data, 0 ≤ p.2 ∧ p.2 ≤ 1)
    ∧ ((∃ f ∈ numericFeatures data, rawScore sqrtF data f ≠ 0) →
        ((calculateFeatureImportance sqrtF data).map Prod.snd).sum = 1)
    ∧ ((∀ f ∈ numericFeatures data, rawScore sqrtF data f = 0) →
        ∀ p ∈ calculateFeatureImportance sqrtF data, p.2 = 0) := by
  intro sqrtF data h
  have hperm : (calculateFeatureImportance sqrtF data).Perm
      (normalizedImportances sqrtF data) := List.perm_insertionSort _ _
  have himp_nonneg : ∀ p ∈ importancesList sqrtF data, 0 ≤ p.2 := by
    intro p hp
    obtain ⟨f, _, rfl⟩ := List.mem_map.mp hp
    exact rawScore_nonneg sqrtF h data f
  have hsnd_nonneg : ∀ x ∈ (importancesList sqrtF data).map Prod.snd, 0 ≤ x := by
    intro x hx
    obtain ⟨p, hp, rfl⟩ := List.mem_map.mp hx
    exact himp_nonneg p hp
  have htot : 0 ≤ totalScore sqrtF data := List.sum_nonneg hsnd_nonneg
  refine ⟨?_, ?_, ?_⟩
  · intro p hp
    have hp' := hperm.mem_iff.mp hp
    obtain ⟨q, hq, rfl⟩ := List.mem_map.mp hp'
    by_cases ht : totalScore sqrtF data = 0
    · simp [ht]
    · have htpos : 0 < totalScore sqrtF data := lt_of_le_of_ne htot (Ne.symm ht)
      have hle : q.2 ≤ totalScore sqrtF data :=
        List.single_le_sum hsnd_nonneg _ (List.mem_map_of_mem Prod.snd hq)
      constructor
      · dsimp only
        rw [if_neg ht]
        exact div_nonneg (himp_nonneg q hq) htot
      · dsimp only
        rw [if_neg ht]
        exact (div_le_one htpos).mpr hle
  · rintro ⟨f, hf, hne⟩
    have hmem : (f, rawScore sqrtF data f) ∈ importancesList sqrtF data :=
      List.mem_map_of_mem _ hf
    have hpos : 0 < rawScore sqrtF data f :=
      lt_of_le_of_ne (rawScore_nonneg sqrtF h data f) (Ne.symm hne)
    have hle : rawScore sqrtF data f ≤ totalScore sqrtF data :=
      List.single_le_sum hsnd_nonneg _ (List.mem_map_of_mem Prod.snd hmem)
    have ht : totalScore sqrtF data ≠ 0 := ne_of_gt (lt_of_lt_of_le hpos hle)
    have hsum : ((calculateFeatureImportance sqrtF data).map Prod.snd).sum
        = ((normalizedImportances sqrtF data).map Prod.snd).sum :=
      (hperm.map Prod.snd).sum_eq
    rw [hsum]
    have hns : (normalizedImportances sqrtF data).map Prod.snd
        = ((importancesList sqrtF data).map Prod.snd).map
            (fun q => q / totalScore sqrtF data) := by
      simp [normalizedImportances, List.map_map, ht, Function.comp]
    rw [hns, list_sum_map_div]
    exact div_self ht
  · intro hall p hp
    have ht : totalScore sqrtF data = 0 := by
      show ((importancesList sqrtF data).map Prod.snd).sum = 0
      apply List.sum_eq_zero
      intro x hx
      obtain ⟨q, hq, rfl⟩ := List.mem_map.mp hx
      obtain ⟨f, hf, rfl⟩ := List.mem_map.mp hq
      exact hall f hf
    have hp' := hperm.mem_iff.mp hp
    obtain ⟨q, hq, rfl⟩ := List.mem_map.mp hp'
    dsimp only
    rw [if_pos ht]

/-- C4 witness: the scenario dataset under the identity square-root model:
all entries in `[0, 1]` and total 1. -/
theorem c4_normalized_scores_witness :
    (∀ p ∈ calculateFeatureImportance (fun q => q) scenarioTempData,
        0 ≤ p.2 ∧ p.2 ≤ 1)
    ∧ ((calculateFeatureImportance (fun q => q) scenarioTempData).map
        Prod.snd).sum = 1 := by
  have h := c4_normalized_scores (fun q => q) scenarioTempData (fun _ hx => hx)
  refine ⟨h.1, h.2.1 ⟨"temp", ?_, ?_⟩⟩
  · rw [numericFeatures_scen]
    exact List.mem_singleton.mpr rfl
  · rw [rawScore_scen]
    norm_num

/-- C9: for a non-empty dataset whose first record has no duplicate keys, the
feature-importance result carries exactly one entry per numeric, non-`Type`,
non-`Prediction` key of the first record, and is sorted in descending order of
normalized score. -/
theorem c9_feature_entries : ∀ (sqrtF : ℚ → ℚ) (r : Record) (rest : List Record),
    (r.map Prod.fst).Nodup →
    ((calculateFeatureImportance sqrtF (r :: rest)).map Prod.fst).Perm
        (numericFeatures (r :: rest))
    ∧ List.Sorted (fun a b : String × ℚ => b.2 ≤ a.2)
        (calculateFeatureImportance sqrtF (r :: rest))
    ∧ ∀ k ∈ numericFeatures (r :: rest),
        ((calculateFeatureImportance sqrtF (r :: rest)).map Prod.fst).count k = 1 := by
  intro sqrtF r rest hnd
  have hfst : (normalizedImportances sqrtF (r :: rest)).map Prod.fst
      = numericFeatures (r :: rest) := by
    unfold normalizedImportances importancesList
    rw [List.map_map, List.map_map]
    show List.map (fun f : String => f) (numericFeatures (r :: rest))
      = numericFeatures (r :: rest)
    exact List.map_id' _
  have hperm : ((calculateFeatureImportance sqrtF (r :: rest)).map Prod.fst).Perm
      (numericFeatures (r :: rest)) := by
    rw [← hfst]
    exact (List.perm_insertionSort _ _).map Prod.fst
  refine ⟨hperm, List.sorted_insertionSort _ _, ?_⟩
  intro k hk
  have hnodup : (numericFeatures (r :: rest)).Nodup := by
    unfold numericFeatures
    exact hnd.filter _
  rw [hperm.count_eq]
  exact List.count_eq_one_of_mem hnodup hk

/-- C9 witness: the scenario dataset, whose first record's keys are
duplicate-free. -/
theorem c9_feature_entries_witness :
    ((calculateFeatureImportance (fun q => q)
        (mkTempRecord 10 "No Failure" ::
          [mkTempRecord 10 "No Failure", mkTempRecord 20 "Failure",
           mkTempRecord 20 "Failure"])).map Prod.fst).Perm
      (numericFeatures (mkTempRecord 10 "No Failure" ::
        [mkTempRecord 10 "No Failure", mkTempRecord 20 "Failure",
         mkTempRecord 20 "Failure"]))
    ∧ List.Sorted (fun a b : String × ℚ => b.2 ≤ a.2)
        (calculateFeatureImportance (fun q => q)
          (mkTempRecord 10 "No Failure" ::
            [mkTempRecord 10 "No Failure", mkTempRecord 20 "Failure",
             mkTempRecord 20 "Failure"]))
    ∧ ∀ k ∈ numericFeatures (mkTempRecord 10 "No Failure" ::
          [mkTempRecord 10 "No Failure", mkTempRecord 20 "Failure",
           mkTempRecord 20 "Failure"]),
        ((calculateFeatureImportance (fun q => q)
            (mkTempRecord 10 "No Failure" ::
              [mkTempRecord 10 "No Failure", mkTempRecord 20 "Failure",
               mkTempRecord 20 "Failure"])).map Prod.fst).count k = 1 :=
  c9_feature_entries (fun q => q) (mkTempRecord 10 "No Failure")
    [mkTempRecord 10 "No Failure", mkTempRecord 20 "Failure",
     mkTempRecord 20 "Failure"]
    (by simp [mkTempRecord])
